import Mathlib

/-!
Shallow embedding of the lightdm seat/display provisioning core
(`src/seat-xdmcp-session.c`) and the user property-accessor layer
(`liblightdm-gobject/user.c`).

Nullable GObject pointers are modelled as `Option`; `g_return_*_if_fail`
guards become early returns on `none`.  Collaborator code that is not in
the given sources (xdmcp-session.c, xauthority.c, xserver-remote.c,
xdisplay.c, seat.c, greeter.c) is modelled from the spec; each such
definition says so in its doc comment.
-/

/-- An XAuthority credential.  Modelled from the spec:
`xauthority.c` is not among the sources; spec section 3 gives
Authority = \x7b display_number, shared_secret (opaque bytes), bind_address \x7d,
immutable once issued. -/
structure XAuthority where
  display_number : Nat
  shared_secret : List Nat
  bind_address : String
deriving DecidableEq, Repr

/-- A negotiated XDMCP session.  Modelled from the spec:
`xdmcp-session.c` is not among the sources; spec section 3 gives
NegotiatedSession = \x7b authority, display_number, protocol_state \x7d.
The protocol state is opaque to the seat layer. -/
structure XDMCPSession where
  authority : XAuthority
  display_number : Nat
  protocol_state : Nat
deriving DecidableEq, Repr

/-- Modelled from the spec: accessor of `xdmcp-session.c` (not among the
sources); returns the Authority owned by the session, by reference. -/
def xdmcp_session_get_authority (session : XDMCPSession) : XAuthority :=
  session.authority

/-- Modelled from the spec: accessor of `xdmcp-session.c` (not among the
sources); returns the display number owned by the session. -/
def xdmcp_session_get_display_number (session : XDMCPSession) : Nat :=
  session.display_number

/-- Modelled from the spec: accessor of `xauthority.c` (not among the
sources); returns the bind address recorded in the authority. -/
def xauth_get_address (authority : XAuthority) : String :=
  authority.bind_address

/-- A remote X server handle: address + display number + borrowed
authority.  Modelled from the spec: `xserver-remote.c` is not among the
sources; spec section 3 gives RemoteServerHandle =
\x7b bind_address, display_number, authority (borrowed) \x7d. -/
structure XServerRemote where
  address : String
  display_number : Nat
  authority : XAuthority
deriving DecidableEq, Repr

/-- Modelled from the spec: constructor of `xserver-remote.c` (not among
the sources); builds the handle from (address, display number,
authority-by-reference), copying nothing. -/
def xserver_remote_new (address : String) (number : Nat) (authority : XAuthority) : XServerRemote :=
  { address := address, display_number := number, authority := authority }

/-- A display backed by a remote X server.  Modelled from the spec:
`xdisplay.c` is not among the sources; a RemoteDisplay wraps exactly one
RemoteServerHandle. -/
structure XDisplay where
  xserver : XServerRemote
deriving DecidableEq, Repr

/-- Modelled from the spec: constructor of `xdisplay.c` (not among the
sources); wraps the given server handle in a new display, taking its own
reference to the handle (the Display becomes an owner of the handle). -/
def xdisplay_new (xserver : XServerRemote) : XDisplay :=
  { xserver := xserver }

/-- GLib `g_object_ref` on a nullable session pointer: its precondition
check on a null argument emits a warning and returns null; on a valid
object it takes a reference and returns the same pointer.  Either way the
argument comes back unchanged as a value. -/
def g_object_ref_session (session : Option XDMCPSession) : Option XDMCPSession :=
  session

/-- The SeatXDMCPSession state: the serviced session
(`SeatXDMCPSessionPrivate.session`, a nullable pointer) together with the
set of displays owned by the abstract Seat base (modelled from the spec:
`seat.c` is not among the sources; spec section 3 gives a Seat a set of
owned Displays ordered by creation). -/
structure SeatXDMCPSession where
  session : Option XDMCPSession
  displays : List XDisplay

/-- `seat_xdmcp_session_new` (seat-xdmcp-session.c lines 26-35): allocates
the seat (the base starts with no displays) and stores
`g_object_ref (session)` into the private session field.  There is no
precondition check of its own in this function. -/
def seat_xdmcp_session_new (session : Option XDMCPSession) : SeatXDMCPSession :=
  { session := g_object_ref_session session, displays := [] }

/-- `seat_xdmcp_session_add_display` (seat-xdmcp-session.c lines 37-51):
reads the authority and display number from the serviced session, builds a
remote X server handle from (authority address, session display number,
authority), wraps it in a new XDisplay, drops the local handle reference
and returns the display.  The seat state is returned alongside: the
function writes no seat or session field.  A null session pointer is
modelled as provisioning failure (`none`): the source dereferences the
session without a null guard. -/
def seat_xdmcp_session_add_display (seat : SeatXDMCPSession) :
    Option (XDisplay × SeatXDMCPSession) :=
  match seat.session with
  | none => none
  | some session =>
    let authority := xdmcp_session_get_authority session
    let xserver := xserver_remote_new (xauth_get_address authority)
      (xdmcp_session_get_display_number session) authority
    let display := xdisplay_new xserver
    some (display, seat)

/-- Provisioning errors.  Modelled from the spec: section 7 names
`AlreadyProvisioned` (second display requested on a seat that already owns
one) and `ProvisioningError` (handle construction failure). -/
inductive ProvisioningError where
  | AlreadyProvisioned
  | ProvisioningFailed
deriving DecidableEq, Repr

/-- Modelled from the spec: the abstract Seat framework call
`create_display()` (`seat.c` is not among the sources).  Spec sections
4.1 and 4.2: a second call before the first Display is released is
rejected with `AlreadyProvisioned` with no state change; otherwise the
variant's provisioning algorithm (`add_display`) runs and on success the
Seat adopts the returned Display. -/
def seat_create_display (seat : SeatXDMCPSession) :
    Except ProvisioningError XDisplay × SeatXDMCPSession :=
  if 1 ≤ seat.displays.length then
    (Except.error ProvisioningError.AlreadyProvisioned, seat)
  else
    match seat_xdmcp_session_add_display seat with
    | none => (Except.error ProvisioningError.ProvisioningFailed, seat)
    | some (display, seat1) =>
      (Except.ok display, { seat1 with displays := seat1.displays ++ [display] })

/-- Reference-count bookkeeping for the server handle built during
`seat_xdmcp_session_add_display`: the total reference count of the handle,
the references held locally by the provisioning call, and the references
held by the wrapping display. -/
structure HandleRC where
  total : Nat
  seat_refs : Nat
  display_refs : Nat
deriving DecidableEq, Repr

/-- After `xserver_remote_new` (line 45): the constructor returns the
handle with one reference, held by the provisioning call. -/
def handle_rc_after_new : HandleRC :=
  { total := 1, seat_refs := 1, display_refs := 0 }

/-- After `xdisplay_new (XSERVER (xserver))` (line 47): the display takes
its own reference to the handle (modelled from the spec: the Display
becomes an owner; `xdisplay.c` is not among the sources). -/
def handle_rc_after_wrap (rc : HandleRC) : HandleRC :=
  { rc with total := rc.total + 1, display_refs := rc.display_refs + 1 }

/-- After `g_object_unref (xserver)` (line 48): the provisioning call
drops its local reference, before the display is returned (line 50). -/
def handle_rc_after_unref (rc : HandleRC) : HandleRC :=
  { rc with total := rc.total - 1, seat_refs := rc.seat_refs - 1 }

/-- The handle's reference state at the `return` of
`seat_xdmcp_session_add_display`: new (line 45), wrap (line 47),
unref (line 48), in source order. -/
def handle_rc_final : HandleRC :=
  handle_rc_after_unref (handle_rc_after_wrap handle_rc_after_new)

/-- An LdmUser record (`_LdmUserPrivate`, user.c lines 28-42): the greeter
the user is connected to, the string properties (nullable `gchar*`
modelled as `Option String`), the logged-in flag, and the lazily populated
defaults cache (`have_defaults` guard plus language/layout/session).  The
greeter itself is modelled from the spec (`greeter.c` is not among the
sources) as an oracle giving the outcome of each successive defaults
lookup, with a counter of lookups performed so far. -/
structure LdmUser where
  greeter_responses : Nat → Option (Option String × Option String × Option String)
  greeter_calls : Nat
  name : Option String
  real_name : Option String
  home_directory : Option String
  image : Option String
  logged_in : Bool
  have_defaults : Bool
  language : Option String
  layout : Option String
  session : Option String

/-- `ldm_user_get_name` (user.c lines 73-78): `NULL` on an invalid user,
otherwise the name field. -/
def ldm_user_get_name (user : Option LdmUser) : Option String :=
  match user with
  | none => none
  | some u => u.name

/-- `ldm_user_set_name` (user.c lines 80-86): no effect on an invalid
user, otherwise replaces the name field with a copy of the argument. -/
def ldm_user_set_name (user : Option LdmUser) (name : Option String) : Option LdmUser :=
  match user with
  | none => none
  | some u => some { u with name := name }

/-- `ldm_user_get_real_name` (user.c lines 96-101). -/
def ldm_user_get_real_name (user : Option LdmUser) : Option String :=
  match user with
  | none => none
  | some u => u.real_name

/-- `ldm_user_set_real_name` (user.c lines 103-109). -/
def ldm_user_set_real_name (user : Option LdmUser) (real_name : Option String) : Option LdmUser :=
  match user with
  | none => none
  | some u => some { u with real_name := real_name }

/-- `ldm_user_get_display_name` (user.c lines 119-128): `NULL` on an
invalid user; the real name when that pointer is non-null, else the
name. -/
def ldm_user_get_display_name (user : Option LdmUser) : Option String :=
  match user with
  | none => none
  | some u =>
    match u.real_name with
    | some rn => some rn
    | none => u.name

/-- `ldm_user_get_home_directory` (user.c lines 138-143). -/
def ldm_user_get_home_directory (user : Option LdmUser) : Option String :=
  match user with
  | none => none
  | some u => u.home_directory

/-- `ldm_user_set_home_directory` (user.c lines 145-151). -/
def ldm_user_set_home_directory (user : Option LdmUser) (home_directory : Option String) :
    Option LdmUser :=
  match user with
  | none => none
  | some u => some { u with home_directory := home_directory }

/-- `ldm_user_get_image` (user.c lines 161-166). -/
def ldm_user_get_image (user : Option LdmUser) : Option String :=
  match user with
  | none => none
  | some u => u.image

/-- `ldm_user_set_image` (user.c lines 168-174). -/
def ldm_user_set_image (user : Option LdmUser) (image : Option String) : Option LdmUser :=
  match user with
  | none => none
  | some u => some { u with image := image }

/-- `get_defaults` (user.c lines 176-184): if the `have_defaults` guard is
set, return at once; otherwise invoke the greeter lookup
(`ldm_greeter_get_user_defaults`, modelled from the spec as the next
oracle response, advancing the call counter) and only on success store
the three returned values and set the guard.  A failed lookup leaves the
guard and the cached fields untouched. -/
def get_defaults (user : LdmUser) : LdmUser :=
  if user.have_defaults then user
  else
    match user.greeter_responses user.greeter_calls with
    | some (lang, lay, sess) =>
      { user with greeter_calls := user.greeter_calls + 1, have_defaults := true,
                  language := lang, layout := lay, session := sess }
    | none => { user with greeter_calls := user.greeter_calls + 1 }

/-- `ldm_user_get_language` (user.c lines 194-200): `NULL` on an invalid
user; otherwise populate the defaults cache if needed and return the
language field.  The possibly updated user state is returned alongside. -/
def ldm_user_get_language (user : Option LdmUser) : Option String × Option LdmUser :=
  match user with
  | none => (none, none)
  | some u =>
    let u1 := get_defaults u
    (u1.language, some u1)

/-- `ldm_user_get_layout` (user.c lines 210-216). -/
def ldm_user_get_layout (user : Option LdmUser) : Option String × Option LdmUser :=
  match user with
  | none => (none, none)
  | some u =>
    let u1 := get_defaults u
    (u1.layout, some u1)

/-- `ldm_user_get_session` (user.c lines 226-232). -/
def ldm_user_get_session (user : Option LdmUser) : Option String × Option LdmUser :=
  match user with
  | none => (none, none)
  | some u =>
    let u1 := get_defaults u
    (u1.session, some u1)

/-- `ldm_user_get_logged_in` (user.c lines 242-247): `FALSE` on an invalid
user, otherwise the logged-in flag. -/
def ldm_user_get_logged_in (user : Option LdmUser) : Bool :=
  match user with
  | none => false
  | some u => u.logged_in

/-- `ldm_user_set_logged_in` (user.c lines 249-254). -/
def ldm_user_set_logged_in (user : Option LdmUser) (logged_in : Bool) : Option LdmUser :=
  match user with
  | none => none
  | some u => some { u with logged_in := logged_in }

/-- The authority of the spec section 8 scenario: secret "abc" (bytes),
address 10.0.0.7, display number 5. -/
def authority_ex : XAuthority :=
  { display_number := 5, shared_secret := [97, 98, 99], bind_address := "10.0.0.7" }

/-- The session of the spec section 8 scenario. -/
def session_ex : XDMCPSession :=
  { authority := authority_ex, display_number := 5, protocol_state := 0 }

/-- The display provisioned from the scenario session. -/
def display_ex : XDisplay :=
  xdisplay_new (xserver_remote_new "10.0.0.7" 5 authority_ex)

/-- The seat bound to the scenario session after its first, successful,
create_display call: it owns one display. -/
def seat_provisioned_ex : SeatXDMCPSession :=
  (seat_create_display (seat_xdmcp_session_new (some session_ex))).2

/-- Provisioning leaves the seat state as it found it: the source writes
no seat field, so a successful `seat_xdmcp_session_add_display` returns
the input state. -/
theorem add_display_state_eq (seat : SeatXDMCPSession) (d : XDisplay)
    (s1 : SeatXDMCPSession)
    (h : seat_xdmcp_session_add_display seat = some (d, s1)) : s1 = seat := by
  unfold seat_xdmcp_session_add_display at h
  cases hs : seat.session with
  | none => rw [hs] at h; exact absurd h (by simp)
  | some sess =>
    rw [hs] at h
    simp only [Option.some.injEq, Prod.mk.injEq] at h
    exact h.2.symm

/-- Claim C1: for every valid negotiated session, constructing a seat
around it and calling create_display exactly once succeeds, and the
returned display's backing server handle carries the session's display
number and the session's authority, with its address taken from that
authority. -/
theorem create_display_once_matches_session (sess : XDMCPSession) :
    ∃ d seat1,
      seat_create_display (seat_xdmcp_session_new (some sess)) = (Except.ok d, seat1) ∧
      d.xserver.display_number = sess.display_number ∧
      d.xserver.authority = sess.authority ∧
      d.xserver.address = sess.authority.bind_address :=
  ⟨_, _, rfl, rfl, rfl, rfl⟩

/-- Claim C2: a second create_display call on a seat that already owns its
one display is rejected with AlreadyProvisioned, the seat state is
returned unchanged, and the owned-display count remains 1. -/
theorem second_create_display_rejected (seat : SeatXDMCPSession)
    (hone : seat.displays.length = 1) :
    seat_create_display seat = (Except.error ProvisioningError.AlreadyProvisioned, seat) ∧
    (seat_create_display seat).2.displays.length = 1 := by
  have h1 : 1 ≤ seat.displays.length := hone ▸ Nat.le_refl 1
  have hrun : seat_create_display seat =
      (Except.error ProvisioningError.AlreadyProvisioned, seat) := by
    unfold seat_create_display
    rw [if_pos h1]
  exact ⟨hrun, by rw [hrun]; exact hone⟩

/-- Witness for claim C2: the scenario seat that already provisioned its
display has owned-display count 1, and a second call is rejected leaving
the count at 1. -/
theorem second_create_display_rejected_witness :
    seat_provisioned_ex.displays.length = 1 ∧
    (seat_create_display seat_provisioned_ex =
        (Except.error ProvisioningError.AlreadyProvisioned, seat_provisioned_ex) ∧
      (seat_create_display seat_provisioned_ex).2.displays.length = 1) :=
  ⟨rfl, second_create_display_rejected seat_provisioned_ex rfl⟩

/-- Claim C3 counterexample: constructing a seat from a null session does
not fail: the constructor returns a seat, and that seat is bound to a
null session. -/
theorem null_session_seat_produced :
    (seat_xdmcp_session_new none).session = none := rfl

/-- Claim C3 amended: seat construction performs no precondition check:
for every (even null) session argument the constructor returns a seat
storing exactly that argument and owning no display; in particular a null
session yields a seat bound to a null session. -/
theorem seat_new_stores_argument (session : Option XDMCPSession) :
    (seat_xdmcp_session_new session).session = session ∧
    (seat_xdmcp_session_new session).displays = [] :=
  ⟨rfl, rfl⟩

/-- Claim C4 counterexample: a SessionBoundSeat holding a null session
reference exists, namely the one constructed from a null session. -/
theorem null_bound_seat_exists :
    (seat_xdmcp_session_new none).session.isNone = true := rfl

/-- Claim C4 amended: a seat constructed from a non-null session holds
exactly that session, and create_display never reassigns which session
any seat is bound to. -/
theorem session_binding_stable (sess : XDMCPSession) (seat : SeatXDMCPSession) :
    (seat_xdmcp_session_new (some sess)).session = some sess ∧
    (seat_create_display seat).2.session = seat.session := by
  refine ⟨rfl, ?_⟩
  unfold seat_create_display
  by_cases h1 : 1 ≤ seat.displays.length
  · rw [if_pos h1]
  · rw [if_neg h1]
    cases hd : seat_xdmcp_session_add_display seat with
    | none => rfl
    | some p =>
      have := add_display_state_eq seat p.1 p.2 (by rw [hd])
      simp only [this]

/-- Claim C5: provisioning does not mutate the bound session: when
add_display succeeds the seat state afterwards holds the same session,
its authority, display number and protocol state unchanged. -/
theorem add_display_session_unchanged (seat : SeatXDMCPSession) (d : XDisplay)
    (s1 : SeatXDMCPSession)
    (h : seat_xdmcp_session_add_display seat = some (d, s1)) :
    s1.session = seat.session ∧
    s1.session.map XDMCPSession.authority = seat.session.map XDMCPSession.authority ∧
    s1.session.map XDMCPSession.display_number = seat.session.map XDMCPSession.display_number ∧
    s1.session.map XDMCPSession.protocol_state = seat.session.map XDMCPSession.protocol_state := by
  have he := add_display_state_eq seat d s1 h
  subst he
  exact ⟨rfl, rfl, rfl, rfl⟩

/-- Witness for claim C5: on the scenario seat, add_display succeeds with
the scenario display and the session state is unchanged. -/
theorem add_display_session_unchanged_witness :
    seat_xdmcp_session_add_display (seat_xdmcp_session_new (some session_ex)) =
      some (display_ex, seat_xdmcp_session_new (some session_ex)) ∧
    ((seat_xdmcp_session_new (some session_ex)).session =
        (seat_xdmcp_session_new (some session_ex)).session ∧
      (seat_xdmcp_session_new (some session_ex)).session.map XDMCPSession.authority =
        (seat_xdmcp_session_new (some session_ex)).session.map XDMCPSession.authority ∧
      (seat_xdmcp_session_new (some session_ex)).session.map XDMCPSession.display_number =
        (seat_xdmcp_session_new (some session_ex)).session.map XDMCPSession.display_number ∧
      (seat_xdmcp_session_new (some session_ex)).session.map XDMCPSession.protocol_state =
        (seat_xdmcp_session_new (some session_ex)).session.map XDMCPSession.protocol_state) :=
  ⟨rfl, add_display_session_unchanged (seat_xdmcp_session_new (some session_ex))
    display_ex (seat_xdmcp_session_new (some session_ex)) rfl⟩

/-- Claim C6: the server handle built during provisioning is released by
the provisioning call once wrapped and before the display is returned:
its final reference count is one, held solely by the wrapping display,
and the returned display wraps exactly the handle constructed from the
session's authority address, display number and authority. -/
theorem handle_released_once_wrapped (seat : SeatXDMCPSession) (sess : XDMCPSession)
    (h : seat.session = some sess) :
    handle_rc_final.total = 1 ∧ handle_rc_final.seat_refs = 0 ∧
    handle_rc_final.display_refs = 1 ∧
    ∃ s1, seat_xdmcp_session_add_display seat =
      some (xdisplay_new (xserver_remote_new (xauth_get_address sess.authority)
        sess.display_number sess.authority), s1) := by
  refine ⟨rfl, rfl, rfl, seat, ?_⟩
  unfold seat_xdmcp_session_add_display
  rw [h]
  rfl

/-- Witness for claim C6: the scenario seat holds the scenario session and
the reference-count and handle facts hold there. -/
theorem handle_released_once_wrapped_witness :
    (seat_xdmcp_session_new (some session_ex)).session = some session_ex ∧
    (handle_rc_final.total = 1 ∧ handle_rc_final.seat_refs = 0 ∧
      handle_rc_final.display_refs = 1 ∧
      ∃ s1, seat_xdmcp_session_add_display (seat_xdmcp_session_new (some session_ex)) =
        some (xdisplay_new (xserver_remote_new (xauth_get_address session_ex.authority)
          session_ex.display_number session_ex.authority), s1)) :=
  ⟨rfl, handle_released_once_wrapped (seat_xdmcp_session_new (some session_ex)) session_ex rfl⟩

/-- An example user whose greeter always answers the defaults lookup. -/
def user_ex : LdmUser :=
  { greeter_responses := fun _ => some (some "en_US", some "us", some "gnome"),
    greeter_calls := 0, name := some "alice", real_name := some "Alice",
    home_directory := some "/home/alice", image := none, logged_in := false,
    have_defaults := false, language := none, layout := none, session := none }

/-- The example user with a null real name. -/
def user_noreal_ex : LdmUser :=
  { user_ex with real_name := none }

/-- The example user with its defaults cache already populated. -/
def user_cached_ex : LdmUser :=
  { user_ex with have_defaults := true, language := some "en_US",
                 layout := some "us", session := some "gnome" }

/-- The example user whose greeter never answers the defaults lookup. -/
def user_nodefaults_ex : LdmUser :=
  { user_ex with greeter_responses := fun _ => none }

/-- Claim C7: the display name falls back to the username: when the real
name is non-null it is returned, and when it is null the user's name is
returned. -/
theorem display_name_fallback (u : LdmUser) :
    (∀ rn, u.real_name = some rn → ldm_user_get_display_name (some u) = some rn) ∧
    (u.real_name = none → ldm_user_get_display_name (some u) = u.name) := by
  constructor
  · intro rn h
    show (match u.real_name with
      | some rn => some rn
      | none => u.name) = some rn
    rw [h]
  · intro h
    show (match u.real_name with
      | some rn => some rn
      | none => u.name) = u.name
    rw [h]

/-- Witness for claim C7: with a non-null real name the display name is
that real name; with a null real name it is the username. -/
theorem display_name_fallback_witness :
    (user_ex.real_name = some "Alice" ∧
      ldm_user_get_display_name (some user_ex) = some "Alice") ∧
    (user_noreal_ex.real_name = none ∧
      ldm_user_get_display_name (some user_noreal_ex) = user_noreal_ex.name) :=
  ⟨⟨rfl, (display_name_fallback user_ex).1 "Alice" rfl⟩,
    ⟨rfl, (display_name_fallback user_noreal_ex).2 rfl⟩⟩

/-- Claim C8: once the defaults lookup has succeeded (the have_defaults
guard is set), every later language/layout/session accessor call returns
the cached value with the user state - in particular the greeter call
counter - unchanged, so no further lookup is performed and a second call
returns the same value as the first. -/
theorem defaults_populated_once (u : LdmUser) (h : u.have_defaults = true) :
    ldm_user_get_language (some u) = (u.language, some u) ∧
    ldm_user_get_layout (some u) = (u.layout, some u) ∧
    ldm_user_get_session (some u) = (u.session, some u) ∧
    (ldm_user_get_language (ldm_user_get_language (some u)).2).1 =
      (ldm_user_get_language (some u)).1 := by
  have hg : get_defaults u = u := by
    unfold get_defaults
    rw [h]
    rfl
  have hlang : ldm_user_get_language (some u) = (u.language, some u) := by
    show ((get_defaults u).language, some (get_defaults u)) = (u.language, some u)
    rw [hg]
  refine ⟨hlang, ?_, ?_, ?_⟩
  · show ((get_defaults u).layout, some (get_defaults u)) = (u.layout, some u)
    rw [hg]
  · show ((get_defaults u).session, some (get_defaults u)) = (u.session, some u)
    rw [hg]
  · rw [hlang]
    rw [hlang]

/-- Witness for claim C8: on a user whose cache is populated, the
accessors return the cached values without touching the state. -/
theorem defaults_populated_once_witness :
    user_cached_ex.have_defaults = true ∧
    (ldm_user_get_language (some user_cached_ex) =
        (user_cached_ex.language, some user_cached_ex) ∧
      ldm_user_get_layout (some user_cached_ex) =
        (user_cached_ex.layout, some user_cached_ex) ∧
      ldm_user_get_session (some user_cached_ex) =
        (user_cached_ex.session, some user_cached_ex) ∧
      (ldm_user_get_language (ldm_user_get_language (some user_cached_ex)).2).1 =
        (ldm_user_get_language (some user_cached_ex)).1) :=
  ⟨rfl, defaults_populated_once user_cached_ex rfl⟩

/-- Claim C9: a failed defaults lookup is not cached: the guard stays
unset and the cached fields stay untouched, the accessor hands back the
state with only the lookup counter advanced, and the next accessor call
performs the lookup again (the counter advances once more). -/
theorem failed_lookup_not_cached (u : LdmUser) (h0 : u.have_defaults = false)
    (h1 : u.greeter_responses u.greeter_calls = none) :
    (get_defaults u).have_defaults = false ∧
    (get_defaults u).language = u.language ∧
    (get_defaults u).layout = u.layout ∧
    (get_defaults u).session = u.session ∧
    (ldm_user_get_layout (some u)).2 = some (get_defaults u) ∧
    (get_defaults u).greeter_calls = u.greeter_calls + 1 ∧
    (get_defaults (get_defaults u)).greeter_calls = u.greeter_calls + 2 := by
  have hg : get_defaults u = { u with greeter_calls := u.greeter_calls + 1 } := by
    unfold get_defaults
    rw [h0, h1]
    rfl
  refine ⟨by rw [hg]; exact h0, by rw [hg], by rw [hg], by rw [hg], rfl, by rw [hg], ?_⟩
  rw [hg]
  unfold get_defaults
  simp only [h0]
  cases h2 : u.greeter_responses (u.greeter_calls + 1) with
  | none => simp [h2]
  | some r => simp [h2]

/-- Witness for claim C9: on a user whose greeter never answers, the
failure is not cached and the counter advances on each of two calls. -/
theorem failed_lookup_not_cached_witness :
    (user_nodefaults_ex.have_defaults = false ∧
      user_nodefaults_ex.greeter_responses user_nodefaults_ex.greeter_calls = none) ∧
    ((get_defaults user_nodefaults_ex).have_defaults = false ∧
      (get_defaults user_nodefaults_ex).language = user_nodefaults_ex.language ∧
      (get_defaults user_nodefaults_ex).layout = user_nodefaults_ex.layout ∧
      (get_defaults user_nodefaults_ex).session = user_nodefaults_ex.session ∧
      (ldm_user_get_layout (some user_nodefaults_ex)).2 =
        some (get_defaults user_nodefaults_ex) ∧
      (get_defaults user_nodefaults_ex).greeter_calls =
        user_nodefaults_ex.greeter_calls + 1 ∧
      (get_defaults (get_defaults user_nodefaults_ex)).greeter_calls =
        user_nodefaults_ex.greeter_calls + 2) :=
  ⟨⟨rfl, rfl⟩, failed_lookup_not_cached user_nodefaults_ex rfl rfl⟩

/-- Claim C10: every public user accessor is total on an invalid user
argument: each getter returns null (false for the logged-in getter; the
stateful defaults getters return a null value and no state), and each
setter returns without effect. -/
theorem accessors_total_on_invalid :
    ldm_user_get_name none = none ∧
    ldm_user_get_real_name none = none ∧
    ldm_user_get_display_name none = none ∧
    ldm_user_get_home_directory none = none ∧
    ldm_user_get_image none = none ∧
    ldm_user_get_language none = (none, none) ∧
    ldm_user_get_layout none = (none, none) ∧
    ldm_user_get_session none = (none, none) ∧
    ldm_user_get_logged_in none = false ∧
    (∀ s, ldm_user_set_name none s = none) ∧
    (∀ s, ldm_user_set_real_name none s = none) ∧
    (∀ s, ldm_user_set_home_directory none s = none) ∧
    (∀ s, ldm_user_set_image none s = none) ∧
    (∀ b, ldm_user_set_logged_in none b = none) :=
  ⟨rfl, rfl, rfl, rfl, rfl, rfl, rfl, rfl, rfl,
    fun _ => rfl, fun _ => rfl, fun _ => rfl, fun _ => rfl, fun _ => rfl⟩
